import Mathlib

/-!
# Verification of the agentic-framework orchestration core

Shallow embedding of the repository's orchestration layer:

* `a2a_protocol/agent_registry.py` — `AgentCard`, `AgentRegistry`
* `a2a_protocol/communication.py`  — `A2AClient` (delegation, broadcast)
* `orchestration/router.py`        — `AgentRouter` (selection, routing)
* `orchestration/conversation_manager.py` — `ConversationManager`

Python `dict`s are modelled as insertion-ordered association lists with
the usual dict operations (`dictGet`, `dictInsert`, `dictErase`); Python
iteration over `.items()` / `.values()` is iteration over the list.
Wall-clock timestamps (`datetime.now()`) are passed in as explicit string
parameters.  Exceptions are modelled with `Except`.
-/

namespace AgenticFramework

/-! ## Python dict model -/

/-- `d.get(k)` / `d[k]`: first (and, for a well-formed dict, only) binding. -/
def dictGet {α : Type} (k : String) : List (String × α) → Option α
  | [] => none
  | (k', v) :: rest => if k' = k then some v else dictGet k rest

/-- `d[k] = v`: overwrite the existing binding in place, else append. -/
def dictInsert {α : Type} (k : String) (v : α) : List (String × α) → List (String × α)
  | [] => [(k, v)]
  | (k', v') :: rest =>
      if k' = k then (k, v) :: rest else (k', v') :: dictInsert k v rest

/-- `del d[k]` (guarded by `k in d` at every call site in the source). -/
def dictErase {α : Type} (k : String) : List (String × α) → List (String × α)
  | [] => []
  | (k', v') :: rest => if k' = k then rest else (k', v') :: dictErase k rest

/-- Well-formedness of a dict model: keys are pairwise distinct
(guaranteed for every real Python dict). -/
abbrev DictWF {α : Type} (l : List (String × α)) : Prop :=
  (l.map Prod.fst).Nodup

/-! ## `agent_registry.py` -/

/-- `AgentCard` (dataclass).  `endpoints`, `authentication` and `metadata`
are string-keyed maps whose values the core never inspects; they are
modelled with string values. -/
structure AgentCard where
  agent_id : String
  name : String
  description : String
  capabilities : List String
  endpoints : List (String × String)
  authentication : List (String × String)
  metadata : List (String × String)
deriving Repr, DecidableEq

/-- `AgentRegistry`: `self.agents : Dict[str, AgentCard]`. -/
structure AgentRegistry where
  agents : List (String × AgentCard)
deriving Repr, DecidableEq

/-- `register_agent`: `self.agents[card.agent_id] = card`. -/
def register_agent (r : AgentRegistry) (card : AgentCard) : AgentRegistry :=
  { agents := dictInsert card.agent_id card r.agents }

/-- `discover_agents`: all cards whose `capabilities` contain `capability`,
in dict iteration (insertion) order. -/
def discover_agents (r : AgentRegistry) (capability : String) : List AgentCard :=
  (r.agents.map Prod.snd).filter (fun a => a.capabilities.contains capability)

/-- `get_agent`: `self.agents.get(agent_id)`. -/
def get_agent (r : AgentRegistry) (agent_id : String) : Option AgentCard :=
  dictGet agent_id r.agents

/-- `unregister_agent`: delete if present, silently keep otherwise. -/
def unregister_agent (r : AgentRegistry) (agent_id : String) : AgentRegistry :=
  match dictGet agent_id r.agents with
  | some _ => { agents := dictErase agent_id r.agents }
  | none => r

/-! ## `router.py` — task selection -/

/-- The task dict built by the conversation manager and consumed by the
router (`type`, `capabilities`, `message`, `user_id`, `context`,
`conversation_history`, `timestamp`).  `route_task` reads `type` and
`capabilities` with `.get` defaults, so both are optional here. -/
structure HistEntry where
  role : String
  content : String
  timestamp : String
deriving Repr, DecidableEq

structure Task where
  type : Option String
  message : String
  user_id : String
  capabilities : Option (List String)
  context : List (String × String)
  conversation_history : List HistEntry
  timestamp : String
deriving Repr, DecidableEq

/-- A locally registered agent handle: its advertised `capabilities`
attribute and its `process_task` behaviour (which may raise; the raised
message is the `Except.error` payload). -/
structure LocalAgent where
  capabilities : List String
  process_task : Task → Except String String

/-- `AgentRouter._agent_has_capabilities`. -/
def agent_has_capabilities (agent : LocalAgent) (required_capabilities : List String) : Bool :=
  match required_capabilities with
  | [] => true
  | _ => required_capabilities.all (fun cap => agent.capabilities.contains cap)

/-- The predicate applied to each id of a routing-rule entry
(`router.py` lines 38–41): the id must be a *local* handle and pass the
capability check; a non-local id is skipped. -/
def rule_entry_pred (agents : List (String × LocalAgent)) (required : List String)
    (agent_id : String) : Bool :=
  match dictGet agent_id agents with
  | some agent => agent_has_capabilities agent required
  | none => false

/-- Selection step 1: the routing-rule scan (`router.py` lines 36–41). -/
def rule_match (routing_rules : List (String × List String))
    (agents : List (String × LocalAgent)) (task_type : String)
    (required : List String) : Option String :=
  match dictGet task_type routing_rules with
  | none => none
  | some ids => ids.find? (rule_entry_pred agents required)

/-- Selection step 2: scan all local handles (`router.py` lines 44–46). -/
def local_match (agents : List (String × LocalAgent)) (required : List String) :
    Option String :=
  (agents.find? (fun p => agent_has_capabilities p.2 required)).map Prod.fst

/-- The loop body of selection step 3: for each required capability in
order, query `discover_agents` and return the first discovered card's id. -/
def external_scan (registry : AgentRegistry) : List String → Option String
  | [] => none
  | cap :: rest =>
      match discover_agents registry cap with
      | [] => external_scan registry rest
      | card :: _ => some card.agent_id

/-- Selection step 3 (`router.py` lines 49–53), including the
`if required_capabilities:` guard. -/
def external_match (registry : AgentRegistry) (required : List String) : Option String :=
  match required with
  | [] => none
  | _ => external_scan registry required

/-- `AgentRouter._select_best_agent`: the three steps in order, first
`some` wins, else `None`. -/
def select_best_agent (routing_rules : List (String × List String))
    (agents : List (String × LocalAgent)) (registry : AgentRegistry)
    (task_type : String) (required : List String) : Option String :=
  match rule_match routing_rules agents task_type required with
  | some agent_id => some agent_id
  | none =>
      match local_match agents required with
      | some agent_id => some agent_id
      | none => external_match registry required

/-! ## `communication.py` — `A2AClient` -/

/-- The mock response dict produced by `_send_message`. -/
structure DeliveryResult where
  status : String
  response : String
  timestamp : String
deriving Repr, DecidableEq

/-- The `task_delegation` message dict built by `delegate_task`
(`from`, `to`, `type`, `task`, `timestamp`, `message_id`). -/
structure DelegationMessage where
  sender : String
  recipient : String
  kind : String
  task : Task
  timestamp : String
  message_id : String
deriving Repr, DecidableEq

def mk_delegation_message (self_id target : String) (task : Task) (now ts : String) :
    DelegationMessage :=
  { sender := self_id, recipient := target, kind := "task_delegation", task := task,
    timestamp := now, message_id := self_id ++ "_" ++ target ++ "_" ++ ts }

/-- The two exceptions `delegate_task` can raise (spec taxonomy:
`TargetNotFound` for the `ValueError` on a directory miss,
`DelegationFailed` for the wrapped delivery failure). -/
inductive A2AError where
  | targetNotFound (target : String)
  | delegationFailed (target : String) (cause : String)
deriving Repr, DecidableEq

/-- `str(e)` of the raised exception, exactly the source's f-strings. -/
def A2AError.message : A2AError → String
  | .targetNotFound t => "Agent " ++ t ++ " not found in registry"
  | .delegationFailed t c => "Failed to delegate task to " ++ t ++ ": " ++ c

/-- `A2AClient.delegate_task`.  The transport (`_send_message`) is the
pluggable delivery capability of the spec and is passed in as
`send_message`; a raised delivery error is its `Except.error` payload. -/
def delegate_task (registry : AgentRegistry)
    (send_message : AgentCard → DelegationMessage → Except String DeliveryResult)
    (self_id target : String) (task : Task) (now ts : String) :
    Except A2AError DeliveryResult :=
  match get_agent registry target with
  | none => .error (.targetNotFound target)
  | some card =>
      match send_message card (mk_delegation_message self_id target task now ts) with
      | .ok result => .ok result
      | .error e => .error (.delegationFailed target e)

/-- The source's `_send_message` simulation: always succeeds with the
mock "delivered" response. -/
def send_message_mock (now : String) (card : AgentCard) (_msg : DelegationMessage) :
    Except String DeliveryResult :=
  .ok { status := "delivered",
        response := "Message delivered to " ++ card.agent_id,
        timestamp := now }

/-- `A2AClient.broadcast_status`: iterate the subscriber ids; each
iteration performs one delivery attempt (`_send_status_update`) inside
`try/except`, so the attempt's outcome — success or failure — is
discarded and the loop continues.  The delivery capability is modelled
as a state-transforming effect `send_status_update : String → σ → σ ×
Except String Unit` so that attempts are observable in the state `σ`. -/
def broadcast_status {σ : Type} (send_status_update : String → σ → σ × Except String Unit) :
    List String → σ → σ
  | [], s => s
  | listener :: rest, s =>
      broadcast_status send_status_update rest (send_status_update listener s).1

/-! ## `router.py` — routing -/

structure RouterState where
  agents : List (String × LocalAgent)
  routing_rules : List (String × List String)

/-- The collaborators `route_task` reaches through `self.a2a_client`:
the shared registry, the transport, the client's own id and the clock. -/
structure RouteEnv where
  registry : AgentRegistry
  send_message : AgentCard → DelegationMessage → Except String DeliveryResult
  self_id : String
  now : String
  ts : String

/-- Python `str()` of the delivery-result dict, used by the f-string in
`_execute_task_with_agent`. -/
def DeliveryResult.render (r : DeliveryResult) : String :=
  "\x7b'status': '" ++ r.status ++ "', 'response': '" ++ r.response ++
    "', 'timestamp': '" ++ r.timestamp ++ "'\x7d"

/-- `AgentRouter._execute_task_with_agent`. -/
def execute_task_with_agent (env : RouteEnv) (rs : RouterState) (agent_id : String)
    (task : Task) : Except String String :=
  match dictGet agent_id rs.agents with
  | some agent =>
      match agent.process_task task with
      | .ok result => .ok ("Task completed by " ++ agent_id ++ ": " ++ result)
      | .error e => .error e
  | none =>
      match delegate_task env.registry env.send_message env.self_id agent_id task
          env.now env.ts with
      | .ok result => .ok ("Task delegated to " ++ agent_id ++ ": " ++ result.render)
      | .error e => .error e.message

/-- `AgentRouter.route_task`: selection, the no-agent text, then
invocation with the `try/except` that turns execution errors into text.
Python's `if not best_agent:` tests truthiness of an `Optional[str]`:
it is `True` both for `None` and for the falsy empty string, so a
selection that returns `""` also takes the no-suitable-agent branch. -/
def route_task (env : RouteEnv) (rs : RouterState) (task : Task) : String :=
  let task_type := task.type.getD "general"
  let required := task.capabilities.getD []
  match select_best_agent rs.routing_rules rs.agents env.registry task_type required with
  | none => "No suitable agent found for task type: " ++ task_type
  | some best_agent =>
      if best_agent = "" then
        "No suitable agent found for task type: " ++ task_type
      else
        match execute_task_with_agent env rs best_agent task with
        | .ok result => result
        | .error e => "Error executing task with agent " ++ best_agent ++ ": " ++ e

/-! ## `conversation_manager.py` -/

structure ConvState where
  started_at : String
  context : List (String × String)
  preferences : List (String × String)
  last_activity : String
deriving Repr, DecidableEq

structure ManagerState where
  conversation_state : List (String × ConvState)
  conversation_history : List (String × List HistEntry)
  active_sessions : List (String × Bool)

/-- `ConversationManager._initialize_conversation`. -/
def initialize_conversation (m : ManagerState) (user_id now : String) : ManagerState :=
  { conversation_state := dictInsert user_id
      { started_at := now, context := [], preferences := [], last_activity := now }
      m.conversation_state,
    conversation_history := dictInsert user_id [] m.conversation_history,
    active_sessions := dictInsert user_id true m.active_sessions }

/-- `ConversationManager._log_message`. -/
def log_message (m : ManagerState) (user_id role content now : String) : ManagerState :=
  let history := match dictGet user_id m.conversation_history with
    | some h => h
    | none => []
  let entry : HistEntry := { role := role, content := content, timestamp := now }
  let ch := dictInsert user_id (history ++ [entry]) m.conversation_history
  let cs := match dictGet user_id m.conversation_state with
    | some st => dictInsert user_id { st with last_activity := now } m.conversation_state
    | none => m.conversation_state
  { m with conversation_history := ch, conversation_state := cs }

/-- Python substring matching: `matchesAt sub l` holds when `l` starts
with `sub`. -/
def matchesAt : List Char → List Char → Bool
  | [], _ => true
  | _ :: _, [] => false
  | a :: as, b :: bs => a = b && matchesAt as bs

/-- `hasSubstr sub l`: `sub` occurs contiguously somewhere in `l`. -/
def hasSubstr (sub : List Char) : List Char → Bool
  | [] => sub.isEmpty
  | c :: rest => matchesAt sub (c :: rest) || hasSubstr sub rest

/-- Python `s.lower()` (character-wise, as for the ASCII keywords the
source compares against). -/
def toLowerStr (s : String) : String :=
  ⟨s.data.map Char.toLower⟩

/-- Python `keyword in s` (substring containment). -/
def strContains (s keyword : String) : Bool :=
  hasSubstr keyword.data s.data

def research_keywords : List String := ["search", "find", "research", "look up"]
def planning_keywords : List String := ["plan", "schedule", "organize", "break down"]
def analysis_keywords : List String := ["analyze", "report", "summarize"]
def coding_keywords : List String := ["code", "program", "implement", "develop"]

/-- The ordered keyword table of `_analyze_user_message`
(`conversation_manager.py` lines 68–85): lowercase the message, first
matching category wins, default `("general", [])`. -/
def classify_message (message : String) : String × List String :=
  let message_lower := toLowerStr message
  if research_keywords.any (fun k => strContains message_lower k) then
    ("research", ["web_search", "data_analysis"])
  else if planning_keywords.any (fun k => strContains message_lower k) then
    ("planning", ["task_decomposition", "workflow_planning"])
  else if analysis_keywords.any (fun k => strContains message_lower k) then
    ("analysis", ["data_analysis", "report_generation"])
  else if coding_keywords.any (fun k => strContains message_lower k) then
    ("coding", ["code_generation", "debugging"])
  else ("general", [])

/-- `ConversationManager._analyze_user_message`: classification plus the
task dict (context from state, last 5 history entries via `[-5:]`). -/
def analyze_user_message (m : ManagerState) (user_id message now : String) : Task :=
  let tc := classify_message message
  let context := match dictGet user_id m.conversation_state with
    | some st => st.context
    | none => []
  let history := match dictGet user_id m.conversation_history with
    | some h => h
    | none => []
  { type := some tc.1, message := message, user_id := user_id,
    capabilities := some tc.2, context := context,
    conversation_history := history.drop (history.length - 5),
    timestamp := now }

/-- `ConversationManager.process_user_input`. -/
def process_user_input (env : RouteEnv) (rs : RouterState) (m : ManagerState)
    (user_id message now : String) : ManagerState × String :=
  let m1 := match dictGet user_id m.conversation_state with
    | none => initialize_conversation m user_id now
    | some _ => m
  let m2 := log_message m1 user_id "user" message now
  let task := analyze_user_message m2 user_id message now
  let response := route_task env rs task
  let m3 := log_message m2 user_id "assistant" response now
  (m3, response)

/-- Python `l[i:]` for an arbitrary integer index `i`. -/
def pyTail {α : Type} (i : Int) (l : List α) : List α :=
  if i < 0 then l.drop (((l.length : Int) + i).toNat)
  else l.drop (min i.toNat l.length)

/-- `ConversationManager.get_conversation_history`: note the Python
truthiness test `if limit:`, false for both `None` and `0`. -/
def get_conversation_history (m : ManagerState) (user_id : String) (limit : Option Int) :
    List HistEntry :=
  let history := match dictGet user_id m.conversation_history with
    | some h => h
    | none => []
  match limit with
  | some n => if n ≠ 0 then pyTail (-n) history else history
  | none => history

/-! ## Dict lemmas -/

theorem dictGet_insert_self {α : Type} (k : String) (v : α) (l : List (String × α)) :
    dictGet k (dictInsert k v l) = some v := by
  induction l with
  | nil => simp [dictGet, dictInsert]
  | cons p rest ih =>
      obtain ⟨k', v'⟩ := p
      by_cases h : k' = k
      · simp [dictInsert, h, dictGet]
      · simp [dictInsert, h, dictGet, ih]

theorem dictGet_eq_none_of_not_mem {α : Type} (k : String) (l : List (String × α))
    (h : k ∉ l.map Prod.fst) : dictGet k l = none := by
  induction l with
  | nil => rfl
  | cons p rest ih =>
      obtain ⟨k', v'⟩ := p
      simp only [List.map_cons, List.mem_cons] at h
      push_neg at h
      have hne : ¬k' = k := fun he => h.1 he.symm
      simp [dictGet, hne, ih h.2]

theorem dictGet_erase_self {α : Type} (k : String) (l : List (String × α))
    (h : DictWF l) : dictGet k (dictErase k l) = none := by
  induction l with
  | nil => rfl
  | cons p rest ih =>
      obtain ⟨k', v'⟩ := p
      simp only [DictWF, List.map_cons, List.nodup_cons] at h
      by_cases he : k' = k
      · subst he
        simp only [dictErase, if_pos rfl]
        exact dictGet_eq_none_of_not_mem k' rest h.1
      · simp [dictErase, he, dictGet, ih h.2]

/-! ## Concrete fixtures for witnesses and counterexamples -/

def card0 : AgentCard :=
  { agent_id := "a1", name := "Alpha", description := "a test agent",
    capabilities := ["c"], endpoints := [], authentication := [], metadata := [] }

def cardR : AgentCard :=
  { agent_id := "remote1", name := "Remote", description := "a directory agent",
    capabilities := ["c"], endpoints := [], authentication := [], metadata := [] }

def cardE : AgentCard :=
  { agent_id := "ext1", name := "External", description := "external agent",
    capabilities := ["c1"], endpoints := [], authentication := [], metadata := [] }

def agentL : LocalAgent := { capabilities := ["c"], process_task := fun _ => .ok "done" }

def rules1 : List (String × List String) := [("t", ["remote1", "local1"])]

def agents1 : List (String × LocalAgent) := [("local1", agentL)]

def registry1 : AgentRegistry := ⟨[("remote1", cardR)]⟩

def registry2 : AgentRegistry := ⟨[("ext1", cardE)]⟩

def task0 : Task :=
  { type := none, message := "hi", user_id := "u1", capabilities := none,
    context := [], conversation_history := [], timestamp := "t0" }

def task1 : Task :=
  { type := some "research", message := "search for news", user_id := "u1",
    capabilities := some ["web_search"], context := [], conversation_history := [],
    timestamp := "t0" }

def env0 : RouteEnv :=
  { registry := ⟨[]⟩, send_message := fun _ _ => .error "transport down",
    self_id := "router", now := "n0", ts := "s0" }

def rs0 : RouterState := { agents := [], routing_rules := [] }

/-! ## Claim C8 — registry register/get/unregister algebra -/

/-- Claim C8: for every record and directory state, `get(R.id)` returns
`R` immediately after `register(R)` (register inserts or overwrites by
id, last writer wins, and never fails — it is a total function);
`get(R.id)` is absent immediately after `unregister(R.id)` (for any
well-formed dict state, as every Python dict is); and `unregister` of an
absent id leaves the registry unchanged. -/
theorem registry_get_after_register_unregister (r : AgentRegistry) (card : AgentCard)
    (agent_id : String) :
    get_agent (register_agent r card) card.agent_id = some card ∧
    (DictWF r.agents → get_agent (unregister_agent r agent_id) agent_id = none) ∧
    (get_agent r agent_id = none → unregister_agent r agent_id = r) := by
  refine ⟨?_, ?_, ?_⟩
  · exact dictGet_insert_self card.agent_id card r.agents
  · intro hwf
    unfold unregister_agent get_agent
    cases hg : dictGet agent_id r.agents with
    | none => exact hg
    | some c => exact dictGet_erase_self agent_id r.agents hwf
  · intro hnone
    unfold unregister_agent
    unfold get_agent at hnone
    rw [hnone]

/-- Witness for C8 at concrete registries. -/
theorem registry_get_after_register_unregister_witness :
    get_agent (register_agent ⟨[]⟩ card0) card0.agent_id = some card0 ∧
    get_agent (unregister_agent ⟨[("a1", card0)]⟩ "a1") "a1" = none ∧
    unregister_agent ⟨[]⟩ "a1" = ⟨[]⟩ :=
  ⟨(registry_get_after_register_unregister ⟨[]⟩ card0 "a1").1,
   (registry_get_after_register_unregister ⟨[("a1", card0)]⟩ card0 "a1").2.1 (by decide),
   (registry_get_after_register_unregister ⟨[]⟩ card0 "a1").2.2 rfl⟩

/-! ## Claim C4 — delegate_task error semantics -/

/-- Claim C4: `delegate_task` resolves the target through the
directory's `get` first; when the target is absent it fails with
`TargetNotFound` — for *every* transport `send_message`, so no delivery
is attempted and no envelope observed; when the target is present and
delivery raises `cause`, it fails with `DelegationFailed` carrying the
target id and the cause. -/
theorem delegate_task_error_semantics (registry : AgentRegistry)
    (send_message : AgentCard → DelegationMessage → Except String DeliveryResult)
    (self_id target : String) (task : Task) (now ts : String) :
    (get_agent registry target = none →
      delegate_task registry send_message self_id target task now ts =
        .error (.targetNotFound target)) ∧
    (∀ card cause, get_agent registry target = some card →
      send_message card (mk_delegation_message self_id target task now ts) =
        .error cause →
      delegate_task registry send_message self_id target task now ts =
        .error (.delegationFailed target cause)) := by
  constructor
  · intro h
    simp [delegate_task, h]
  · intro card cause h1 h2
    simp [delegate_task, h1, h2]

/-- Witness for C4: an empty registry yields `TargetNotFound` under any
transport; a registered target with a raising transport yields
`DelegationFailed` with the cause. -/
theorem delegate_task_error_semantics_witness :
    delegate_task ⟨[]⟩ (fun _ _ => .error "boom") "self" "a1" task0 "n" "s" =
      .error (.targetNotFound "a1") ∧
    delegate_task ⟨[("a1", card0)]⟩ (fun _ _ => .error "boom") "self" "a1" task0 "n" "s" =
      .error (.delegationFailed "a1" "boom") :=
  ⟨(delegate_task_error_semantics ⟨[]⟩ (fun _ _ => .error "boom") "self" "a1"
      task0 "n" "s").1 rfl,
   (delegate_task_error_semantics ⟨[("a1", card0)]⟩ (fun _ _ => .error "boom") "self" "a1"
      task0 "n" "s").2 card0 "boom" rfl rfl⟩

/-! ## Claim C5 — broadcast resilience -/

/-- Claim C5: `broadcast_status` attempts delivery to every subscriber
exactly once per call, in subscriber order, for *every* pattern of
per-subscriber delivery outcomes (`outcome` maps each subscriber to the
success or failure its attempt produces): instrumenting the delivery
capability to record each attempted subscriber shows the recorded trace
is exactly the subscriber list, so a failing subscriber never prevents
the attempts for the remaining ones.  `broadcast_status`'s return type
carries no error channel: the call always completes normally. -/
theorem broadcast_status_attempts_all (outcome : String → Except String Unit)
    (listeners : List String) (trace : List String) :
    broadcast_status (fun listener t => (t ++ [listener], outcome listener))
      listeners trace = trace ++ listeners := by
  induction listeners generalizing trace with
  | nil => simp [broadcast_status]
  | cons l rest ih => simp [broadcast_status, ih]

/-- Witness for C5: with the first of three subscribers failing, all
three are still attempted, in order. -/
theorem broadcast_status_attempts_all_witness :
    broadcast_status
      (fun listener t => (t ++ [listener],
        if listener = "s1" then .error "down" else .ok ()))
      ["s1", "s2", "s3"] [] = [] ++ ["s1", "s2", "s3"] :=
  broadcast_status_attempts_all
    (fun listener => if listener = "s1" then .error "down" else .ok ())
    ["s1", "s2", "s3"] []

/-! ## Claim C1 — rule-table selection considers only local handles -/

/-- The rule-table selection step as Claim C1 states it: scan the
entry's agent-id list in order and pick the first id that is either a
local handle whose capabilities are a superset of the required ones, or
— when the id is not a local handle — an id that is resolvable through
the directory and whose directory record matches all required
capabilities. -/
def rule_match_claimed (routing_rules : List (String × List String))
    (agents : List (String × LocalAgent)) (registry : AgentRegistry)
    (task_type : String) (required : List String) : Option String :=
  match dictGet task_type routing_rules with
  | none => none
  | some ids => ids.find? (fun agent_id =>
      match dictGet agent_id agents with
      | some agent => agent_has_capabilities agent required
      | none =>
          match get_agent registry agent_id with
          | some card => required.all (fun cap => card.capabilities.contains cap)
          | none => false)

/-- Counterexample to C1 as stated: rule entry `t ↦ [remote1, local1]`,
`remote1` not a local handle but registered in the directory with the
required capability, `local1` a local handle with the capability.  The
claimed selection picks `remote1` (first id, non-local, resolvable and
matching); the code's selection skips `remote1` because it is not a
local handle and picks `local1`. -/
theorem rule_match_nonlocal_counterexample :
    rule_match_claimed rules1 agents1 registry1 "t" ["c"] = some "remote1" ∧
    select_best_agent rules1 agents1 registry1 "t" ["c"] = some "local1" := by
  constructor <;> rfl

/-- Claim C1 (amended): for every task whose type has a rule-table
entry, the rule scan considers only ids that are *local* handles — it
picks the first id in the entry's list that is a local handle whose
capabilities pass the capability check, and an id that is not a local
handle is never selected at this step (the predicate rejects it without
consulting the directory, as the second conjunct shows for every
non-local id). -/
theorem rule_match_local_only (routing_rules : List (String × List String))
    (agents : List (String × LocalAgent)) (registry : AgentRegistry)
    (task_type : String) (required : List String) :
    (∀ ids agent_id, dictGet task_type routing_rules = some ids →
      ids.find? (rule_entry_pred agents required) = some agent_id →
      select_best_agent routing_rules agents registry task_type required =
        some agent_id) ∧
    (∀ agent_id, dictGet agent_id agents = none →
      rule_entry_pred agents required agent_id = false) := by
  constructor
  · intro ids agent_id hrules hfind
    simp only [select_best_agent, rule_match, hrules, hfind]
  · intro agent_id h
    unfold rule_entry_pred
    rw [h]

/-- Witness for amended C1 at the counterexample configuration: the
rule scan skips the non-local `remote1` and the selection returns
`local1`. -/
theorem rule_match_local_only_witness :
    select_best_agent rules1 agents1 registry1 "t" ["c"] = some "local1" ∧
    rule_entry_pred agents1 ["c"] "remote1" = false :=
  ⟨(rule_match_local_only rules1 agents1 registry1 "t" ["c"]).1
      ["remote1", "local1"] "local1" rfl rfl,
   (rule_match_local_only rules1 agents1 registry1 "t" ["c"]).2 "remote1" rfl⟩

/-! ## Claim C2 — no-suitable-agent is a textual result, not a failure -/

/-- Counterexample to C2 as stated: with an empty rule table, no local
handles and an empty directory, `route_task` *returns* the descriptive
text as an ordinary `String` result — its type has no failure channel
and the no-agent branch is the plain `return` of an f-string
(`router.py` line 23), so no `NoSuitableAgent` failure is raised to the
caller. -/
theorem route_task_no_agent_counterexample :
    route_task env0 rs0 task0 = "No suitable agent found for task type: general" := by
  rfl

/-- Claim C2 (amended): when all three selection steps find no agent,
`route_task` returns the textual result
`"No suitable agent found for task type: <type>"` to its caller (it
does not raise; the selection failure is converted to text by the
router itself). -/
theorem route_task_no_agent_text (env : RouteEnv) (rs : RouterState) (task : Task)
    (h : select_best_agent rs.routing_rules rs.agents env.registry
      (task.type.getD "general") (task.capabilities.getD []) = none) :
    route_task env rs task =
      "No suitable agent found for task type: " ++ task.type.getD "general" := by
  simp [route_task, h]

/-- Witness for amended C2 on a `research`-typed task with a required
capability no one advertises. -/
theorem route_task_no_agent_text_witness :
    route_task env0 rs0 task1 = "No suitable agent found for task type: " ++
      (task1.type.getD "general") :=
  route_task_no_agent_text env0 rs0 task1 rfl

/-! ## Claim C3 — external fallback: first discovery wins, no full check -/

/-- The external fallback as Claim C3 states it: query
`findByCapability` for each required capability in order and select the
id of the first record discovered for any single capability — with no
check that the record advertises all required capabilities. -/
def fallback_claimed (registry : AgentRegistry) : List String → Option String
  | [] => none
  | cap :: rest =>
      match discover_agents registry cap with
      | [] => fallback_claimed registry rest
      | card :: _ => some card.agent_id

theorem external_scan_eq_fallback_claimed (registry : AgentRegistry)
    (required : List String) :
    external_scan registry required = fallback_claimed registry required := by
  induction required with
  | nil => rfl
  | cons cap rest ih =>
      unfold external_scan fallback_claimed
      cases discover_agents registry cap with
      | nil => exact ih
      | cons card tail => rfl

/-- Claim C3: for every task with non-empty required capabilities that
matches neither a rule-table entry nor a local handle, the selection
equals the claimed best-effort fallback: the first record discovered by
`findByCapability` for the first capability (in required order) with a
non-empty discovery wins, and no verification of the full required set
takes place (the witness selects a record lacking one of the required
capabilities). -/
theorem select_external_fallback (routing_rules : List (String × List String))
    (agents : List (String × LocalAgent)) (registry : AgentRegistry)
    (task_type : String) (required : List String)
    (hreq : required ≠ [])
    (hrule : rule_match routing_rules agents task_type required = none)
    (hlocal : local_match agents required = none) :
    select_best_agent routing_rules agents registry task_type required =
      fallback_claimed registry required := by
  unfold select_best_agent
  rw [hrule, hlocal]
  unfold external_match
  cases required with
  | nil => exact absurd rfl hreq
  | cons cap rest => exact external_scan_eq_fallback_claimed registry (cap :: rest)

/-- Witness for C3: required capabilities `[c1, c2]`, directory holding
only `ext1` which advertises `c1` alone — the fallback selects `ext1`
even though `ext1` does not advertise `c2`. -/
theorem select_external_fallback_witness :
    select_best_agent [] [] registry2 "t" ["c1", "c2"] =
      fallback_claimed registry2 ["c1", "c2"] ∧
    fallback_claimed registry2 ["c1", "c2"] = some "ext1" ∧
    cardE.capabilities.contains "c2" = false :=
  ⟨select_external_fallback [] [] registry2 "t" ["c1", "c2"] (by decide) rfl rfl,
   rfl, rfl⟩

/-! ## Claim C9 — empty required capabilities always select locally -/

/-- Counterexample to C9 as stated: a local agent registered under the
*empty-string* id.  The local handle map `[("", agentL)]` is non-empty
and the task's required-capability set is empty, so selection succeeds
and chooses the local handle `""` — but `if not best_agent:`
(`router.py` line 22) is `True` for the falsy empty string, so
`route_task` takes the no-suitable-agent branch and returns the
no-suitable text anyway. -/
theorem route_no_required_empty_id_counterexample :
    select_best_agent [] [("", agentL)] (AgentRegistry.mk []) "general" [] = some "" ∧
    route_task env0 { agents := [("", agentL)], routing_rules := [] } task0 =
      "No suitable agent found for task type: general" := by
  constructor <;> rfl

/-- Claim C9 (amended): for every task with an empty required-capability
set, if the local handle map is non-empty then selection succeeds, and
whatever id it returns is a local handle — the capability check accepts
every agent vacuously, so a remote (non-local) agent is never selected,
regardless of the task type and rule table; and whenever the selected id
is not the empty string, `route_task` proceeds to the invocation branch
rather than the no-suitable-agent branch.  (A selected empty-string id,
although a successful local selection, is falsy in Python's
`if not best_agent:` test, so `route_task` then returns the
no-suitable-agent text despite the successful selection.) -/
theorem select_local_when_no_required (env : RouteEnv) (rs : RouterState) (task : Task)
    (hcap : task.capabilities.getD [] = []) (h : rs.agents ≠ []) :
    (select_best_agent rs.routing_rules rs.agents env.registry
      (task.type.getD "general") []).isSome = true ∧
    (∀ agent_id, select_best_agent rs.routing_rules rs.agents env.registry
      (task.type.getD "general") [] = some agent_id →
      (dictGet agent_id rs.agents).isSome = true) ∧
    (∀ agent_id, select_best_agent rs.routing_rules rs.agents env.registry
      (task.type.getD "general") [] = some agent_id → agent_id ≠ "" →
      route_task env rs task =
        match execute_task_with_agent env rs agent_id task with
        | .ok result => result
        | .error e =>
            "Error executing task with agent " ++ agent_id ++ ": " ++ e) := by
  obtain ⟨p, rest, hag⟩ := List.exists_cons_of_ne_nil h
  have hlocal : local_match rs.agents [] = some p.1 := by
    rw [hag]
    simp [local_match, List.find?, agent_has_capabilities]
  have hrule_local : ∀ agent_id,
      rule_match rs.routing_rules rs.agents (task.type.getD "general") [] =
        some agent_id → (dictGet agent_id rs.agents).isSome = true := by
    intro agent_id hr
    unfold rule_match at hr
    cases hg : dictGet (task.type.getD "general") rs.routing_rules with
    | none => rw [hg] at hr; cases hr
    | some ids =>
        rw [hg] at hr
        have hp := List.find?_some hr
        unfold rule_entry_pred at hp
        cases hd : dictGet agent_id rs.agents with
        | none => rw [hd] at hp; cases hp
        | some agent => rfl
  have hsel_local : ∀ agent_id,
      select_best_agent rs.routing_rules rs.agents env.registry
        (task.type.getD "general") [] = some agent_id →
      (dictGet agent_id rs.agents).isSome = true := by
    intro agent_id hsel
    cases hr : rule_match rs.routing_rules rs.agents (task.type.getD "general") [] with
    | some picked =>
        simp only [select_best_agent, hr, Option.some.injEq] at hsel
        subst hsel
        exact hrule_local picked hr
    | none =>
        simp only [select_best_agent, hr, hlocal, Option.some.injEq] at hsel
        subst hsel
        rw [hag]
        obtain ⟨k, v⟩ := p
        simp [dictGet]
  refine ⟨?_, hsel_local, ?_⟩
  · cases hr : rule_match rs.routing_rules rs.agents (task.type.getD "general") [] with
    | some agent_id => simp [select_best_agent, hr]
    | none => simp [select_best_agent, hr, hlocal]
  · intro agent_id hsel hid
    simp only [route_task, hcap, hsel]
    rw [if_neg hid]

def rsLocal : RouterState := { agents := agents1, routing_rules := rules1 }

/-- Witness for amended C9: a single local agent under a non-empty id
and an interfering rule table — the selection returns the local handle
and `route_task` takes the invocation branch, completing the task. -/
theorem select_local_when_no_required_witness :
    (select_best_agent rsLocal.routing_rules rsLocal.agents env0.registry
      (task0.type.getD "general") []).isSome = true ∧
    (dictGet "local1" rsLocal.agents).isSome = true ∧
    route_task env0 rsLocal task0 = "Task completed by local1: done" :=
  ⟨(select_local_when_no_required env0 rsLocal task0 rfl (by simp [rsLocal, agents1])).1,
   (select_local_when_no_required env0 rsLocal task0 rfl
      (by simp [rsLocal, agents1])).2.1 "local1" rfl,
   ((select_local_when_no_required env0 rsLocal task0 rfl
      (by simp [rsLocal, agents1])).2.2 "local1" rfl (by decide)).trans rfl⟩

/-! ## Claim C6 — keyword classification table -/

/-- `any(keyword in message_lower for keyword in ks)`: some keyword of
`ks` occurs (case-insensitively) in `message`. -/
def has_keyword (ks : List String) (message : String) : Bool :=
  ks.any (fun k => strContains (toLowerStr message) k)

/-- Claim C6: classification applies the fixed ordered keyword table
with case-insensitive substring matching, first match wins: a research
keyword yields `research` with `{web_search, data_analysis}`; otherwise
a planning keyword yields `planning` with `{task_decomposition,
workflow_planning}`; otherwise an analysis keyword yields `analysis`
with `{data_analysis, report_generation}`; otherwise a coding keyword
yields `coding` with `{code_generation, debugging}`; and a message
matching no keyword category yields `general` with no required
capabilities.  (The classification ignores the user id.) -/
theorem classify_message_table (message : String) :
    (has_keyword research_keywords message = true →
      classify_message message = ("research", ["web_search", "data_analysis"])) ∧
    (has_keyword research_keywords message = false →
      has_keyword planning_keywords message = true →
      classify_message message =
        ("planning", ["task_decomposition", "workflow_planning"])) ∧
    (has_keyword research_keywords message = false →
      has_keyword planning_keywords message = false →
      has_keyword analysis_keywords message = true →
      classify_message message = ("analysis", ["data_analysis", "report_generation"])) ∧
    (has_keyword research_keywords message = false →
      has_keyword planning_keywords message = false →
      has_keyword analysis_keywords message = false →
      has_keyword coding_keywords message = true →
      classify_message message = ("coding", ["code_generation", "debugging"])) ∧
    (has_keyword research_keywords message = false →
      has_keyword planning_keywords message = false →
      has_keyword analysis_keywords message = false →
      has_keyword coding_keywords message = false →
      classify_message message = ("general", [])) := by
  refine ⟨?_, ?_, ?_, ?_, ?_⟩
  · intro h1
    unfold has_keyword at h1
    simp only [classify_message]
    rw [if_pos h1]
  · intro h1 h2
    unfold has_keyword at h1 h2
    simp only [classify_message]
    rw [if_neg (by simp [h1]), if_pos h2]
  · intro h1 h2 h3
    unfold has_keyword at h1 h2 h3
    simp only [classify_message]
    rw [if_neg (by simp [h1]), if_neg (by simp [h2]), if_pos h3]
  · intro h1 h2 h3 h4
    unfold has_keyword at h1 h2 h3 h4
    simp only [classify_message]
    rw [if_neg (by simp [h1]), if_neg (by simp [h2]), if_neg (by simp [h3]), if_pos h4]
  · intro h1 h2 h3 h4
    unfold has_keyword at h1 h2 h3 h4
    simp only [classify_message]
    rw [if_neg (by simp [h1]), if_neg (by simp [h2]), if_neg (by simp [h3]),
      if_neg (by simp [h4])]

/-- Witness for C6: one concrete message per category. -/
theorem classify_message_table_witness :
    classify_message "search for quantum computing" =
      ("research", ["web_search", "data_analysis"]) ∧
    classify_message "plan a project" =
      ("planning", ["task_decomposition", "workflow_planning"]) ∧
    classify_message "summarize the results" =
      ("analysis", ["data_analysis", "report_generation"]) ∧
    classify_message "implement a feature" =
      ("coding", ["code_generation", "debugging"]) ∧
    classify_message "hello there" = ("general", []) :=
  ⟨(classify_message_table "search for quantum computing").1 (by decide),
   (classify_message_table "plan a project").2.1 (by decide) (by decide),
   (classify_message_table "summarize the results").2.2.1 (by decide) (by decide)
     (by decide),
   (classify_message_table "implement a feature").2.2.2.1 (by decide) (by decide)
     (by decide) (by decide),
   (classify_message_table "hello there").2.2.2.2 (by decide) (by decide) (by decide)
     (by decide)⟩

/-! ## Claim C10 — a limit of 0 returns the full history -/

/-- Claim C10: for a user with a non-empty history, an explicit limit
of `0` is falsy in Python (`if limit:`), so the full history is
returned — exactly as with no limit — while a positive limit `n`
returns the last `n` entries (`history[-n:]`, i.e. all of them when `n`
exceeds the length). -/
theorem get_history_zero_limit (m : ManagerState) (user_id : String)
    (l : List HistEntry) (hl : dictGet user_id m.conversation_history = some l)
    (hne : l ≠ []) :
    get_conversation_history m user_id (some 0) = l ∧
    get_conversation_history m user_id none = l ∧
    ∀ n : Nat, 0 < n →
      get_conversation_history m user_id (some (n : Int)) =
        l.drop (l.length - n) := by
  refine ⟨?_, ?_, ?_⟩
  · simp [get_conversation_history, hl]
  · simp [get_conversation_history, hl]
  · intro n hn
    have h0 : (n : Int) ≠ 0 := by omega
    have hneg : -(n : Int) < 0 := by omega
    simp only [get_conversation_history, hl]
    rw [if_pos h0]
    unfold pyTail
    rw [if_pos hneg]
    congr 1
    omega

def histEntry1 : HistEntry := { role := "user", content := "m1", timestamp := "t1" }
def histEntry2 : HistEntry := { role := "assistant", content := "r1", timestamp := "t1" }
def histEntry3 : HistEntry := { role := "user", content := "m2", timestamp := "t2" }

def managerWithHistory : ManagerState :=
  { conversation_state := [],
    conversation_history := [("u1", [histEntry1, histEntry2, histEntry3])],
    active_sessions := [] }

/-- Witness for C10: three stored entries; limit `0` yields all three,
limit `2` yields the last two. -/
theorem get_history_zero_limit_witness :
    get_conversation_history managerWithHistory "u1" (some 0) =
      [histEntry1, histEntry2, histEntry3] ∧
    get_conversation_history managerWithHistory "u1" (some (2 : Nat)) =
      [histEntry1, histEntry2, histEntry3].drop
        ([histEntry1, histEntry2, histEntry3].length - 2) :=
  ⟨(get_history_zero_limit managerWithHistory "u1" [histEntry1, histEntry2, histEntry3]
      rfl (by simp)).1,
   (get_history_zero_limit managerWithHistory "u1" [histEntry1, histEntry2, histEntry3]
      rfl (by simp)).2.2 2 (by decide)⟩

/-! ## Claim C7 — per-user history ordering across two process calls -/

/-- Claim C7: for a fresh user `u`, after `process(u, m1)` (returning
`r1`) and then `process(u, m2)` (returning `r2`), the full history for
`u` is exactly `[user:m1, assistant:r1, user:m2, assistant:r2]` — each
call appends its user entry before routing and its assistant entry
(holding the returned response) after. -/
theorem process_history_ordering (env : RouteEnv) (rs : RouterState) (m : ManagerState)
    (u m1 m2 t1 t2 : String)
    (hs : dictGet u m.conversation_state = none)
    (hh : dictGet u m.conversation_history = none) :
    get_conversation_history
      (process_user_input env rs (process_user_input env rs m u m1 t1).1 u m2 t2).1
      u none =
      [⟨"user", m1, t1⟩,
       ⟨"assistant", (process_user_input env rs m u m1 t1).2, t1⟩,
       ⟨"user", m2, t2⟩,
       ⟨"assistant",
         (process_user_input env rs (process_user_input env rs m u m1 t1).1 u m2 t2).2,
         t2⟩] := by
  simp only [process_user_input, initialize_conversation, log_message,
    analyze_user_message, get_conversation_history, hs, hh, dictGet_insert_self,
    List.nil_append, List.cons_append, List.append_nil]

def managerEmpty : ManagerState :=
  { conversation_state := [], conversation_history := [], active_sessions := [] }

/-- Witness for C7 at a fresh manager, an empty router and two concrete
messages. -/
theorem process_history_ordering_witness :
    get_conversation_history
      (process_user_input env0 rs0
        (process_user_input env0 rs0 managerEmpty "u1" "hello" "t1").1 "u1"
        "plan a trip" "t2").1 "u1" none =
      [⟨"user", "hello", "t1"⟩,
       ⟨"assistant", (process_user_input env0 rs0 managerEmpty "u1" "hello" "t1").2, "t1"⟩,
       ⟨"user", "plan a trip", "t2"⟩,
       ⟨"assistant",
         (process_user_input env0 rs0
           (process_user_input env0 rs0 managerEmpty "u1" "hello" "t1").1 "u1"
           "plan a trip" "t2").2, "t2"⟩] :=
  process_history_ordering env0 rs0 managerEmpty "u1" "hello" "plan a trip" "t1" "t2"
    rfl rfl

end AgenticFramework
